import Mathlib

/-!
Verification development for the `a1` bouncing-shapes assignment.

The C++ source is shallowly embedded here:
  * `float` values are modelled as exact rationals (`ℚ`);
  * `std::istream` is modelled as `IStream`, a token list plus the
    `failbit`/`eofbit` flags, with whitespace tokenization already done
    (the config grammar is purely whitespace-token based);
  * stream extraction follows C++11 semantics: an extraction whose sentry
    fails — `failbit` already set, or end-of-input reached while looking
    for the next token — leaves the target untouched (setting `eofbit`
    and `failbit` in the end-of-input case), while a numeric extraction
    whose conversion fails on a present token stores `0` in the target
    and sets `failbit` without consuming the bad token;
  * `std::unique_ptr<Shape>` ownership is modelled twice: physics and
    parsing use a plain value field (entities built by the parser always
    own a shape), while the deep-copy behaviour of `Entity`'s copy
    constructor is modelled against an explicit shape store (`ShapeStore`)
    in which a shape pointer is an index.
-/

namespace A1

/-- `a1::Window` — caption plus screen size (ints in the source). -/
structure Window where
  caption : String
  width : Int
  height : Int
  deriving DecidableEq, Repr

/-- `a1::Color` (final revision) — floating point RGBA, modelled over `ℚ`. -/
structure Color where
  r : ℚ
  g : ℚ
  b : ℚ
  a : ℚ
  deriving DecidableEq, Repr

/-- `a1::FontAsset` — font file path, size, and color (size is a float in
the final revision). -/
structure FontAsset where
  file : String
  size : ℚ
  color : Color
  deriving DecidableEq, Repr

/-- `a1::Position` — 2-dimensional position vector. -/
structure Position where
  x : ℚ
  y : ℚ
  deriving DecidableEq, Repr

/-- `a1::Velocity` — 2-dimensional velocity vector. -/
structure Velocity where
  x : ℚ
  y : ℚ
  deriving DecidableEq, Repr

/-- `a1::AABB` — axis aligned bounding box (final revision). -/
structure AABB where
  x : ℚ
  y : ℚ
  width : ℚ
  height : ℚ
  deriving DecidableEq, Repr

/-- raylib's `Vector2`, used by `calc_overflow` in the earlier revision. -/
structure Vector2 where
  x : ℚ
  y : ℚ
  deriving DecidableEq, Repr

/-- The closed set of shape variants: `a1::Circle{radius}` and
`a1::Rectangle{width, height}`. -/
inductive Shape where
  | circle (radius : ℚ)
  | rect (width height : ℚ)
  deriving DecidableEq, Repr

/-- `a1::Circle::aabb` / `a1::Rectangle::aabb` (final revision): the box of
a circle is the square of side `2 * radius * scale` around the position,
the box of a rectangle is `width * scale` by `height * scale` around the
position. -/
def Shape.aabb : Shape → Position → ℚ → AABB
  | .circle radius, p, scale =>
      ⟨p.x - radius * scale, p.y - radius * scale,
       2 * radius * scale, 2 * radius * scale⟩
  | .rect width height, p, scale =>
      ⟨p.x - width * scale / 2, p.y - height * scale / 2,
       width * scale, height * scale⟩

/-- `a1::Circle::calc_overflow` / `a1::Rectangle::calc_overflow` from the
earlier revision (`src/unnamed/part_000`): per axis, the overflow is the
(negative) minimum when the box starts left of zero, else the excess of
the maximum past the window bound, else zero. -/
def Shape.calc_overflow : Shape → Window → Position → ℚ → Vector2
  | .circle radius, w, p, scale =>
      let min_x := p.x - scale * radius
      let min_y := p.y - scale * radius
      let max_x := p.x + scale * radius
      let max_y := p.y + scale * radius
      ⟨if min_x < 0 then min_x else if max_x > (w.width : ℚ) then max_x - (w.width : ℚ) else 0,
       if min_y < 0 then min_y else if max_y > (w.height : ℚ) then max_y - (w.height : ℚ) else 0⟩
  | .rect width height, w, p, scale =>
      let min_x := p.x - scale * width / 2
      let min_y := p.y - scale * height / 2
      let max_x := p.x + scale * width / 2
      let max_y := p.y + scale * height / 2
      ⟨if min_x < 0 then min_x else if max_x > (w.width : ℚ) then max_x - (w.width : ℚ) else 0,
       if min_y < 0 then min_y else if max_y > (w.height : ℚ) then max_y - (w.height : ℚ) else 0⟩

/-- `a1::Shape::clone`, specialised per variant: `new Circle{*this}` /
`new Rectangle{*this}` copy every field of the concrete shape. -/
def Shape.clone : Shape → Shape
  | .circle radius => .circle radius
  | .rect width height => .rect width height

/-- `a1::Entity` — the parser only ever appends entities owning a shape,
and the physics step dereferences the shape unconditionally, so the shape
is a plain value field here.  (Aliasing of the C++ `unique_ptr` field is
studied separately with `ShapeStore`/`PEntity`.) -/
structure Entity where
  name : String
  position : Position
  velocity : Velocity
  shape : Shape
  scale : ℚ
  color : Color
  is_active : Bool
  deriving DecidableEq, Repr

instance : Inhabited Entity :=
  ⟨{ name := "", position := ⟨0, 0⟩, velocity := ⟨0, 0⟩, shape := .circle 1,
     scale := 1, color := ⟨0, 0, 0, 0⟩, is_active := false }⟩

/-- `a1::Config` — window settings, font settings, entity templates. -/
structure Config where
  window : Window
  font_asset : FontAsset
  entity_templates : List Entity
  deriving DecidableEq, Repr

/-- Default-constructed `a1::Config` (member initialisers of the source
structs: window 1280×800 with empty caption, font size 12, opaque white
font color, empty template list). -/
def defaultConfig : Config :=
  { window := ⟨"", 1280, 800⟩,
    font_asset := ⟨"", 12, ⟨1, 1, 1, 1⟩⟩,
    entity_templates := [] }

/-- `a1::move` (final revision): tentative position, bounding box test per
axis, velocity flip, then integration from the original position with the
possibly-flipped velocity. -/
def move (e : Entity) (w : Window) : Entity :=
  let next : Position := ⟨e.position.x + e.velocity.x, e.position.y + e.velocity.y⟩
  let box := e.shape.aabb next e.scale
  let vx := if box.x < 0 ∨ box.x + box.width > (w.width : ℚ) then -e.velocity.x else e.velocity.x
  let vy := if box.y < 0 ∨ box.y + box.height > (w.height : ℚ) then -e.velocity.y else e.velocity.y
  { e with velocity := ⟨vx, vy⟩,
           position := ⟨e.position.x + vx, e.position.y + vy⟩ }

namespace Prev

/-- `a1::move` from the earlier revision (`src/unnamed/part_000`): flips an
axis's velocity when `calc_overflow` is nonzero on that axis. -/
def move (e : Entity) (w : Window) : Entity :=
  let next : Position := ⟨e.position.x + e.velocity.x, e.position.y + e.velocity.y⟩
  let overflow := e.shape.calc_overflow w next e.scale
  let vx := if overflow.x ≠ 0 then -e.velocity.x else e.velocity.x
  let vy := if overflow.y ≠ 0 then -e.velocity.y else e.velocity.y
  { e with velocity := ⟨vx, vy⟩,
           position := ⟨e.position.x + vx, e.position.y + vy⟩ }

end Prev

/-! ### Token syntax

`std::istream` numeric extraction, restricted to whole-token granularity:
a token parses as an `int` when it is an optional sign followed by decimal
digits, and as a `float` when it is an optional sign followed by digits
with an optional decimal point.  (C++ `num_get` additionally accepts
exponents and can consume a numeric prefix of a token; the claims below
only exercise tokens that are either fully numeric or numeric in no
prefix, where the two notions agree.) -/

/-- Value of a digit string, most significant digit first. -/
def digitsVal (l : List Char) : Nat :=
  l.foldl (fun acc c => 10 * acc + (c.toNat - '0'.toNat)) 0

/-- Parses a nonempty all-digit character list. -/
def parseNatDigits (l : List Char) : Option Nat :=
  if l ≠ [] ∧ l.all Char.isDigit then some (digitsVal l) else none

/-- `std::istream >> int` conversion on one whole token. -/
def parseIntTok (s : String) : Option Int :=
  match s.toList with
  | '-' :: rest => (parseNatDigits rest).map fun n => -(n : Int)
  | '+' :: rest => (parseNatDigits rest).map fun n => (n : Int)
  | l => (parseNatDigits l).map fun n => (n : Int)

/-- Splits a character list at its first `'.'`, if any. -/
def splitDot : List Char → List Char × Option (List Char)
  | [] => ([], none)
  | '.' :: rest => ([], some rest)
  | c :: rest =>
      let r := splitDot rest
      (c :: r.1, r.2)

/-- Unsigned decimal: digits, or digits `.` digits with at least one digit
present on one side of the point. -/
def parseUnsignedRat (l : List Char) : Option ℚ :=
  match splitDot l with
  | (ip, none) =>
      if ip ≠ [] ∧ ip.all Char.isDigit then some (digitsVal ip : ℚ) else none
  | (ip, some fp) =>
      if (ip ≠ [] ∨ fp ≠ []) ∧ ip.all Char.isDigit ∧ fp.all Char.isDigit then
        some ((digitsVal ip : ℚ) + (digitsVal fp : ℚ) / (10 : ℚ) ^ fp.length)
      else none

/-- `std::istream >> float` conversion on one whole token. -/
def parseRatTok (s : String) : Option ℚ :=
  match s.toList with
  | '-' :: rest => (parseUnsignedRat rest).map fun q => -q
  | '+' :: rest => parseUnsignedRat rest
  | l => parseUnsignedRat l

/-! ### Stream model -/

/-- `std::istream` state: the remaining whitespace-separated tokens plus
the `failbit` and `eofbit` flags.  In this program `eofbit` is only ever
set together with `failbit` (by an extraction finding no token), and no
code path clears the flags. -/
structure IStream where
  tokens : List String
  failbit : Bool
  eofbit : Bool
  deriving DecidableEq, Repr

/-- String extraction used for the keyword of `while (input >> s)`:
`none` when the sentry fails or no token remains. -/
def readStr (st : IStream) : Option String × IStream :=
  if st.failbit then (none, st)
  else
    match st.tokens with
    | [] => (none, { st with failbit := true, eofbit := true })
    | t :: ts => (some t, { st with tokens := ts })

/-- `input >> s` for a `std::string` (or path) field: a failed sentry —
`failbit` already set, or end-of-input reached while looking for a token
— leaves the field untouched (end-of-input additionally sets `eofbit`
and `failbit`). -/
def readStrInto (st : IStream) (old : String) : String × IStream :=
  if st.failbit then (old, st)
  else
    match st.tokens with
    | [] => (old, { st with failbit := true, eofbit := true })
    | t :: ts => (t, { st with tokens := ts })

/-- `input >> n` for an `int` field: a failed sentry (flagged stream or
end-of-input) leaves the field untouched; C++11 stores `0` when the
conversion of a present token fails, without consuming the bad token. -/
def readIntInto (st : IStream) (old : Int) : Int × IStream :=
  if st.failbit then (old, st)
  else
    match st.tokens with
    | [] => (old, { st with failbit := true, eofbit := true })
    | t :: ts =>
        match parseIntTok t with
        | some n => (n, { st with tokens := ts })
        | none => (0, { st with failbit := true })

/-- `input >> x` for a `float` field, with the same C++11 semantics. -/
def readRatInto (st : IStream) (old : ℚ) : ℚ × IStream :=
  if st.failbit then (old, st)
  else
    match st.tokens with
    | [] => (old, { st with failbit := true, eofbit := true })
    | t :: ts =>
        match parseRatTok t with
        | some q => (q, { st with tokens := ts })
        | none => (0, { st with failbit := true })

/-- `input >> x` into a local `float` whose failure value is never used:
returns the parsed value or `none`. -/
def readRat (st : IStream) : Option ℚ × IStream :=
  if st.failbit then (none, st)
  else
    match st.tokens with
    | [] => (none, { st with failbit := true, eofbit := true })
    | t :: ts =>
        match parseRatTok t with
        | some q => (some q, { st with tokens := ts })
        | none => (none, { st with failbit := true })

/-! ### Config parsing -/

/-- The `Window` branch of `a1::operator>>(std::istream&, Config&)`:
caption, width, height read positionally into the existing fields. -/
def readWindow (st : IStream) (w : Window) : Window × IStream :=
  let rc := readStrInto st w.caption
  let rw := readIntInto rc.2 w.width
  let rh := readIntInto rw.2 w.height
  (⟨rc.1, rw.1, rh.1⟩, rh.2)

/-- The `Font` branch of `a1::operator>>(std::istream&, Config&)`: file,
size, r, g, b read positionally; alpha forced to fully opaque afterwards
regardless of failure. -/
def readFont (st : IStream) (f : FontAsset) : FontAsset × IStream :=
  let rf := readStrInto st f.file
  let rs := readRatInto rf.2 f.size
  let rr := readRatInto rs.2 f.color.r
  let rg := readRatInto rr.2 f.color.g
  let rb := readRatInto rg.2 f.color.b
  (⟨rf.1, rs.1, ⟨rr.1, rg.1, rb.1, 1⟩⟩, rb.2)

/-- Common-component fields of a freshly default-constructed entity, as
built by `a1::read_common_components`: name, position, velocity, color
r/g/b; alpha is forced opaque and the entity marked active afterwards
regardless of failure; scale keeps its default `1`. -/
structure CommonData where
  name : String
  position : Position
  velocity : Velocity
  color : Color
  scale : ℚ
  is_active : Bool
  deriving DecidableEq, Repr

/-- `a1::read_common_components` on a default-constructed `Entity`. -/
def read_common_components (st : IStream) : CommonData × IStream :=
  let rn := readStrInto st ""
  let rpx := readRatInto rn.2 0
  let rpy := readRatInto rpx.2 0
  let rvx := readRatInto rpy.2 0
  let rvy := readRatInto rvx.2 0
  let rr := readRatInto rvy.2 0
  let rg := readRatInto rr.2 0
  let rb := readRatInto rg.2 0
  (⟨rn.1, ⟨rpx.1, rpy.1⟩, ⟨rvx.1, rvy.1⟩, ⟨rr.1, rg.1, rb.1, 1⟩, 1, true⟩, rb.2)

/-- `a1::read_circle_entity`: common components, then the radius; the
shape is installed only when every read succeeded, and the caller appends
the entity only in that case (modelled by returning `some`). -/
def read_circle_entity (st : IStream) : Option Entity × IStream :=
  let rc := read_common_components st
  if rc.2.failbit then (none, rc.2)
  else
    let rr := readRat rc.2
    match rr.1 with
    | some radius =>
        (some ⟨rc.1.name, rc.1.position, rc.1.velocity, .circle radius,
               rc.1.scale, rc.1.color, rc.1.is_active⟩, rr.2)
    | none => (none, rr.2)

/-- `a1::read_rectangle_entity`: common components, then width and height. -/
def read_rectangle_entity (st : IStream) : Option Entity × IStream :=
  let rc := read_common_components st
  if rc.2.failbit then (none, rc.2)
  else
    let rw := readRat rc.2
    let rh := readRat rw.2
    match rw.1, rh.1 with
    | some width, some height =>
        (some ⟨rc.1.name, rc.1.position, rc.1.velocity, .rect width height,
               rc.1.scale, rc.1.color, rc.1.is_active⟩, rh.2)
    | _, _ => (none, rh.2)

/-- One dispatch step of `a1::operator>>(std::istream&, Config&)` on the
keyword just read: `Window`/`Font` overwrite fields in place, entity
records are appended only when fully read, any other keyword is skipped. -/
def dispatchRecord (s : String) (st : IStream) (c : Config) : Config × IStream :=
  if s = "Window" then
    let rw := readWindow st c.window
    ({ c with window := rw.1 }, rw.2)
  else if s = "Font" then
    let rf := readFont st c.font_asset
    ({ c with font_asset := rf.1 }, rf.2)
  else if s = "Circle" then
    let re := read_circle_entity st
    match re.1 with
    | some e => ({ c with entity_templates := c.entity_templates ++ [e] }, re.2)
    | none => (c, re.2)
  else if s = "Rectangle" then
    let re := read_rectangle_entity st
    match re.1 with
    | some e => ({ c with entity_templates := c.entity_templates ++ [e] }, re.2)
    | none => (c, re.2)
  else (c, st)

/-- The `while (input >> s)` loop of `a1::operator>>(std::istream&,
Config&)`.  Each iteration consumes at least the keyword token, so a fuel
of one more than the token count always suffices (see `readConfig`). -/
def runConfigLoop : Nat → IStream → Config → Config × IStream
  | 0, st, c => (c, st)
  | fuel + 1, st, c =>
      let r := readStr st
      match r.1 with
      | none => (c, r.2)
      | some s =>
          let p := dispatchRecord s r.2 c
          runConfigLoop fuel p.2 p.1

/-- `a1::operator>>(std::istream&, Config&)`. -/
def readConfig (st : IStream) (c : Config) : Config × IStream :=
  runConfigLoop (st.tokens.length + 1) st c

/-- `a1::load_config`, with the opened file stream as input (an
unopenable file is the stream with `failbit` already set): parse into a
default-constructed config, then fail exactly when the stream has failed
without reaching end-of-input. -/
def load_config (st : IStream) : Except String Config :=
  let r := readConfig st defaultConfig
  if r.2.failbit && !r.2.eofbit then
    .error "Failed to read configuration file."
  else
    .ok r.1

/-! ### Selection and edit reconciliation -/

/-- `a1::Input` — the Dear ImGui payload mirroring the selected entity's
editable attributes plus the global toggles. -/
structure Input where
  draw_shapes_enabled : Bool
  draw_text_enabled : Bool
  simulate_enabled : Bool
  selected_index : Nat
  is_active : Bool
  scale : ℚ
  velocity0 : ℚ
  velocity1 : ℚ
  color0 : ℚ
  color1 : ℚ
  color2 : ℚ
  name : String
  deriving DecidableEq, Repr

/-- `a1::change_selection`: out-of-range selection returns unchanged;
otherwise every mirror field is overwritten from the selected entity. -/
def change_selection (input : Input) (entities : List Entity) : Input :=
  if entities.length ≤ input.selected_index then input
  else
    let e := entities.getD input.selected_index default
    { input with
      is_active := e.is_active, scale := e.scale,
      velocity0 := e.velocity.x, velocity1 := e.velocity.y,
      color0 := e.color.r, color1 := e.color.g, color2 := e.color.b,
      name := e.name }

/-- `a1::update_selection`: active flag, scale, color (alpha forced
opaque) and name are written into the entity unconditionally; each
velocity component is written into the entity only when the mirror differs
from its previous-frame value, and otherwise the mirror is refreshed from
the entity.  (The source indexes `entities[input.selected_index]` without
a bounds check — it is only called under `handle_input`'s guard; the
`getD`/`set` used here are total and agree with it in range.) -/
def update_selection (input previous_input : Input) (entities : List Entity) :
    Input × List Entity :=
  let e := entities.getD input.selected_index default
  let v0 := if input.velocity0 = previous_input.velocity0 then e.velocity.x else input.velocity0
  let v1 := if input.velocity1 = previous_input.velocity1 then e.velocity.y else input.velocity1
  let e' := { e with
    is_active := input.is_active, scale := input.scale,
    velocity := ⟨v0, v1⟩,
    color := ⟨input.color0, input.color1, input.color2, 1⟩,
    name := input.name }
  ({ input with velocity0 := v0, velocity1 := v1 },
   entities.set input.selected_index e')

/-- `a1::handle_input`: no-op when the selection is out of range,
reconciliation when the selection is unchanged since the previous frame,
mirror resynchronisation when it changed. -/
def handle_input (input previous_input : Input) (entities : List Entity) :
    Input × List Entity :=
  if entities.length ≤ input.selected_index then (input, entities)
  else if input.selected_index = previous_input.selected_index then
    update_selection input previous_input entities
  else
    (change_selection input entities, entities)

/-! ### Shape ownership model

`Entity::shape` is a `std::unique_ptr<Shape>`; the deep-copy claim is
about pointer aliasing, so here a shape pointer is an index into an
explicit store of shape objects and `Entity`'s copy constructor allocates
a fresh clone. -/

/-- The set of live `Shape` objects; an owning pointer is an index. -/
structure ShapeStore where
  shapes : List Shape
  deriving DecidableEq, Repr

/-- Dereferences a shape pointer (out-of-range reads are undefined in the
source; the default here is arbitrary). -/
def ShapeStore.get (h : ShapeStore) (i : Nat) : Shape :=
  h.shapes.getD i (.circle 1)

/-- Mutates the shape object at a pointer (e.g. assigning its radius or
width/height fields). -/
def ShapeStore.set (h : ShapeStore) (i : Nat) (s : Shape) : ShapeStore :=
  ⟨h.shapes.set i s⟩

/-- `a1::Entity`, with the shape held by pointer as in the source. -/
structure PEntity where
  name : String
  position : Position
  velocity : Velocity
  shape : Nat
  scale : ℚ
  color : Color
  is_active : Bool
  deriving DecidableEq, Repr

/-- `a1::Entity::Entity(const Entity&)`: its member-initializer list
names `name`, `position`, `velocity`, `shape` (set to
`other.shape->clone()`, a freshly allocated copy of the pointee),
`color` and `is_active` — `scale` is absent from the list, so the copy's
scale takes the class's default member initializer `1.0f` instead of the
source's value. -/
def copyPEntity (store : ShapeStore) (e : PEntity) : PEntity × ShapeStore :=
  ({ e with shape := store.shapes.length, scale := 1 },
   ⟨store.shapes ++ [(store.get e.shape).clone]⟩)

/-- What copying an entity with a valid shape pointer actually
guarantees: the copy's shape is a distinct instance holding an equal
shape value, the original's shape is intact, mutating the copy's shape
afterwards leaves the original's shape — hence its computed bounding box
— unchanged, and the copy's name, position, velocity, color and active
flag equal the original's; the copy's scale is reset to the default 1
(the copy constructor does not copy it). -/
def DeepCopyOk (store : ShapeStore) (e : PEntity) : Prop :=
  let r := copyPEntity store e
  r.1.shape ≠ e.shape ∧
  r.2.get r.1.shape = store.get e.shape ∧
  r.2.get e.shape = store.get e.shape ∧
  (∀ s' : Shape, (r.2.set r.1.shape s').get e.shape = store.get e.shape) ∧
  (∀ (s' : Shape) (p : Position) (sc : ℚ),
      ((r.2.set r.1.shape s').get e.shape).aabb p sc = (store.get e.shape).aabb p sc) ∧
  r.1.name = e.name ∧ r.1.position = e.position ∧ r.1.velocity = e.velocity ∧
  r.1.scale = 1 ∧ r.1.color = e.color ∧ r.1.is_active = e.is_active

/-! ## Helper lemmas -/

/-- `Shape::clone` copies every field, so the cloned value equals the
original. -/
theorem Shape.clone_eq (s : Shape) : s.clone = s := by
  cases s <;> rfl

/-- The earlier revision's overflow value is nonzero exactly when the box
minimum is negative or the box maximum exceeds the bound. -/
theorem overflow_ne_zero_iff (mn mx bound : ℚ) :
    ((if mn < 0 then mn else if mx > bound then mx - bound else 0) ≠ 0)
      ↔ (mn < 0 ∨ mx > bound) := by
  by_cases h1 : mn < 0
  · simp [h1, ne_of_lt h1]
  · by_cases h2 : mx > bound
    · simp [h1, h2, sub_ne_zero.mpr (ne_of_gt h2)]
    · simp [h1, h2]

/-! ## Theorems -/

/-- C1: one `move` step computes the tentative position (current position
plus current velocity on both axes), forms the shape's bounding box
centered there (a square of side `2*radius*scale` for a Circle,
`width*scale` by `height*scale` for a Rectangle), negates each axis's
velocity component exactly when that box's minimum on the axis is below 0
or its maximum exceeds the window's dimension, and sets the final
position to the ORIGINAL position plus the possibly-flipped velocity —
with no clamping and no other field changed. -/
theorem c1_move_step (e : Entity) (w : Window) :
    (let tx := e.position.x + e.velocity.x
    let ty := e.position.y + e.velocity.y
    let sideX := match e.shape with
      | .circle radius => 2 * radius * e.scale
      | .rect width _ => width * e.scale
    let sideY := match e.shape with
      | .circle radius => 2 * radius * e.scale
      | .rect _ height => height * e.scale
    let vx := if tx - sideX / 2 < 0 ∨ tx + sideX / 2 > (w.width : ℚ)
              then -e.velocity.x else e.velocity.x
    let vy := if ty - sideY / 2 < 0 ∨ ty + sideY / 2 > (w.height : ℚ)
              then -e.velocity.y else e.velocity.y
    move e w = { e with velocity := ⟨vx, vy⟩,
                        position := ⟨e.position.x + vx, e.position.y + vy⟩ }) := by
  obtain ⟨nm, ⟨px, py⟩, ⟨vx, vy⟩, sh, sc, col, act⟩ := e
  cases sh with
  | circle radius =>
      dsimp only [move, Shape.aabb]
      have hcx : (px + vx - radius * sc < 0 ∨ px + vx - radius * sc + 2 * radius * sc > (w.width : ℚ))
          ↔ (px + vx - 2 * radius * sc / 2 < 0 ∨ px + vx + 2 * radius * sc / 2 > (w.width : ℚ)) := by
        constructor <;> rintro (h | h)
        · exact Or.inl (by linarith)
        · exact Or.inr (by linarith)
        · exact Or.inl (by linarith)
        · exact Or.inr (by linarith)
      have hcy : (py + vy - radius * sc < 0 ∨ py + vy - radius * sc + 2 * radius * sc > (w.height : ℚ))
          ↔ (py + vy - 2 * radius * sc / 2 < 0 ∨ py + vy + 2 * radius * sc / 2 > (w.height : ℚ)) := by
        constructor <;> rintro (h | h)
        · exact Or.inl (by linarith)
        · exact Or.inr (by linarith)
        · exact Or.inl (by linarith)
        · exact Or.inr (by linarith)
      simp only [hcx, hcy]
  | rect width height =>
      dsimp only [move, Shape.aabb]
      have hcx : (px + vx - width * sc / 2 < 0 ∨ px + vx - width * sc / 2 + width * sc > (w.width : ℚ))
          ↔ (px + vx - width * sc / 2 < 0 ∨ px + vx + width * sc / 2 > (w.width : ℚ)) := by
        constructor <;> rintro (h | h)
        · exact Or.inl h
        · exact Or.inr (by linarith)
        · exact Or.inl h
        · exact Or.inr (by linarith)
      have hcy : (py + vy - height * sc / 2 < 0 ∨ py + vy - height * sc / 2 + height * sc > (w.height : ℚ))
          ↔ (py + vy - height * sc / 2 < 0 ∨ py + vy + height * sc / 2 > (w.height : ℚ)) := by
        constructor <;> rintro (h | h)
        · exact Or.inl h
        · exact Or.inr (by linarith)
        · exact Or.inl h
        · exact Or.inr (by linarith)
      simp only [hcx, hcy]

/-- C9: the two revisions of the bounce step are extensionally equal —
for every entity and window, the earlier `move` (flip when
`calc_overflow` is nonzero on an axis) and the final `move` (flip when
the tentative bounding box has min < 0 or max > window dimension on that
axis) flip the same axes and produce the same final position and
velocity. -/
theorem c9_move_revisions_equal (e : Entity) (w : Window) :
    Prev.move e w = move e w := by
  obtain ⟨nm, ⟨px, py⟩, ⟨vx, vy⟩, sh, sc, col, act⟩ := e
  cases sh with
  | circle radius =>
      dsimp only [Prev.move, move, Shape.calc_overflow, Shape.aabb]
      simp only [overflow_ne_zero_iff]
      have hcx : (px + vx - sc * radius < 0 ∨ px + vx + sc * radius > (w.width : ℚ))
          ↔ (px + vx - radius * sc < 0 ∨ px + vx - radius * sc + 2 * radius * sc > (w.width : ℚ)) := by
        constructor <;> rintro (h | h)
        · exact Or.inl (by linarith)
        · exact Or.inr (by linarith)
        · exact Or.inl (by linarith)
        · exact Or.inr (by linarith)
      have hcy : (py + vy - sc * radius < 0 ∨ py + vy + sc * radius > (w.height : ℚ))
          ↔ (py + vy - radius * sc < 0 ∨ py + vy - radius * sc + 2 * radius * sc > (w.height : ℚ)) := by
        constructor <;> rintro (h | h)
        · exact Or.inl (by linarith)
        · exact Or.inr (by linarith)
        · exact Or.inl (by linarith)
        · exact Or.inr (by linarith)
      simp only [hcx, hcy]
  | rect width height =>
      dsimp only [Prev.move, move, Shape.calc_overflow, Shape.aabb]
      simp only [overflow_ne_zero_iff]
      have hcx : (px + vx - sc * width / 2 < 0 ∨ px + vx + sc * width / 2 > (w.width : ℚ))
          ↔ (px + vx - width * sc / 2 < 0 ∨ px + vx - width * sc / 2 + width * sc > (w.width : ℚ)) := by
        constructor <;> rintro (h | h)
        · exact Or.inl (by linarith)
        · exact Or.inr (by linarith)
        · exact Or.inl (by linarith)
        · exact Or.inr (by linarith)
      have hcy : (py + vy - sc * height / 2 < 0 ∨ py + vy + sc * height / 2 > (w.height : ℚ))
          ↔ (py + vy - height * sc / 2 < 0 ∨ py + vy - height * sc / 2 + height * sc > (w.height : ℚ)) := by
        constructor <;> rintro (h | h)
        · exact Or.inl (by linarith)
        · exact Or.inr (by linarith)
        · exact Or.inl (by linarith)
        · exact Or.inr (by linarith)
      simp only [hcx, hcy]

/-- C10: whenever the selected index is at least the number of live
entities (including the empty-list case), `handle_input` leaves the input
payload and every entity unchanged, and `change_selection` leaves every
mirror field unchanged. -/
theorem c10_out_of_range_noop (input previous_input : Input)
    (entities : List Entity)
    (h : entities.length ≤ input.selected_index) :
    handle_input input previous_input entities = (input, entities) ∧
    change_selection input entities = input := by
  constructor
  · simp [handle_input, h]
  · simp [change_selection, h]

/-- Witness for C10 at the empty entity list. -/
theorem c10_out_of_range_noop_witness :
    ([] : List Entity).length
        ≤ (⟨true, true, true, 0, true, 1, 0, 0, 1, 1, 1, ""⟩ : Input).selected_index ∧
    (handle_input ⟨true, true, true, 0, true, 1, 0, 0, 1, 1, 1, ""⟩
        ⟨true, true, true, 0, true, 1, 0, 0, 1, 1, 1, ""⟩ ([] : List Entity)
      = (⟨true, true, true, 0, true, 1, 0, 0, 1, 1, 1, ""⟩, []) ∧
     change_selection ⟨true, true, true, 0, true, 1, 0, 0, 1, 1, 1, ""⟩ ([] : List Entity)
      = ⟨true, true, true, 0, true, 1, 0, 0, 1, 1, 1, ""⟩) :=
  ⟨Nat.le_refl 0,
   c10_out_of_range_noop ⟨true, true, true, 0, true, 1, 0, 0, 1, 1, 1, ""⟩
     ⟨true, true, true, 0, true, 1, 0, 0, 1, 1, 1, ""⟩ [] (Nat.le_refl 0)⟩

/-- C7 counterexample: copying an entity whose scale is 5 yields a copy
whose scale is 1 — the copy constructor's member-initializer list omits
`scale`, so it is reset to the default member initializer rather than
copied; this falsifies the claim that all non-shape fields of the copy
equal those of the original. -/
theorem c7_counterexample :
    ((copyPEntity ⟨[Shape.circle 2]⟩
        ⟨"w", ⟨1, 2⟩, ⟨3, 4⟩, 0, 5, ⟨0, 0, 0, 1⟩, true⟩).1).scale = 1 ∧
    (⟨"w", ⟨1, 2⟩, ⟨3, 4⟩, 0, 5, ⟨0, 0, 0, 1⟩, true⟩ : PEntity).scale = 5 ∧
    (1 : ℚ) ≠ 5 := by
  refine ⟨rfl, rfl, by decide⟩

/-- C7 amended: copying an entity with a valid shape pointer deep-copies
the shape — the copy points at a fresh, initially-equal shape instance,
and any later mutation of the copy's shape leaves the original's shape
and its computed bounding box unchanged; the copy's name, position,
velocity, color and active flag equal the original's, while its scale is
reset to the default 1 rather than copied. -/
theorem c7_deep_copy (store : ShapeStore) (e : PEntity)
    (h : e.shape < store.shapes.length) :
    DeepCopyOk store e := by
  have hget_orig : ∀ s : Shape,
      (ShapeStore.get ⟨store.shapes ++ [s]⟩ e.shape) = store.get e.shape := by
    intro s
    unfold ShapeStore.get
    simp only [List.getD_eq_getElem?_getD, List.getElem?_append_left h]
  have hset : ∀ (s s' : Shape),
      (ShapeStore.get ⟨(store.shapes ++ [s]).set store.shapes.length s'⟩ e.shape)
        = store.get e.shape := by
    intro s s'
    have hne : store.shapes.length ≠ e.shape := by omega
    unfold ShapeStore.get
    simp only [List.getD_eq_getElem?_getD, List.getElem?_set_ne hne,
      List.getElem?_append_left h]
  refine ⟨by simp [copyPEntity]; omega, ?_, ?_, ?_, ?_, rfl, rfl, rfl, rfl, rfl, rfl⟩
  · show (ShapeStore.get ⟨store.shapes ++ [(store.get e.shape).clone]⟩
        store.shapes.length) = store.get e.shape
    unfold ShapeStore.get
    simp only [List.getD_eq_getElem?_getD, List.getElem?_concat_length,
      Option.getD_some, Shape.clone_eq]
  · exact hget_orig _
  · intro s2
    exact hset _ s2
  · intro s2 p sc
    have hs := hset ((store.get e.shape).clone) s2
    show ((ShapeStore.set ⟨store.shapes ++ [(store.get e.shape).clone]⟩
        store.shapes.length s2).get e.shape).aabb p sc = (store.get e.shape).aabb p sc
    unfold ShapeStore.set
    rw [hs]

/-- Witness for C7: a one-shape store and an entity of scale 3 pointing
at it (a scale not equal to the default, so the reset is visible). -/
theorem c7_deep_copy_witness :
    (⟨"w", ⟨1, 2⟩, ⟨3, 4⟩, 0, 3, ⟨0, 0, 0, 1⟩, true⟩ : PEntity).shape
        < (⟨[Shape.circle 2]⟩ : ShapeStore).shapes.length ∧
    DeepCopyOk ⟨[Shape.circle 2]⟩ ⟨"w", ⟨1, 2⟩, ⟨3, 4⟩, 0, 3, ⟨0, 0, 0, 1⟩, true⟩ :=
  ⟨Nat.zero_lt_one,
   c7_deep_copy ⟨[Shape.circle 2]⟩ ⟨"w", ⟨1, 2⟩, ⟨3, 4⟩, 0, 3, ⟨0, 0, 0, 1⟩, true⟩
     Nat.zero_lt_one⟩

/-- C6: for a Circle entity of radius 10 at position (5, 50) with velocity
(-3, 0) and scale 1 in a 200x200 window, one `move` step flips the
x-velocity to +3 and produces final position (8, 50), leaving the
y-velocity at 0. -/
theorem c6_circle_bounce_example :
    move ⟨"c", ⟨5, 50⟩, ⟨-3, 0⟩, .circle 10, 1, ⟨0, 0, 0, 1⟩, true⟩ ⟨"", 200, 200⟩
      = ⟨"c", ⟨8, 50⟩, ⟨3, 0⟩, .circle 10, 1, ⟨0, 0, 0, 1⟩, true⟩ := by
  norm_num [move, Shape.aabb]

/-- C2 counterexample: a `Circle` record whose trailing radius token is
malformed (`"oops"`) is followed by a well-formed `Window` record, yet the
resulting config is completely untouched — the window record is NOT read
(the failed extraction set `failbit`, which terminates the parse loop),
and the whole load raises the read error.  This falsifies the claim that
later well-formed records are still read into the config. -/
theorem c2_counterexample :
    readConfig ⟨["Circle", "nm", "1", "2", "3", "4", "5", "6", "7", "oops",
                 "Window", "Win", "100", "100"], false, false⟩ defaultConfig
      = (defaultConfig,
         ⟨["oops", "Window", "Win", "100", "100"], true, false⟩) ∧
    load_config ⟨["Circle", "nm", "1", "2", "3", "4", "5", "6", "7", "oops",
                  "Window", "Win", "100", "100"], false, false⟩
      = .error "Failed to read configuration file." := by
  exact ⟨by decide, rfl⟩

/-- C8 counterexample: a valid `Window` record (10×20, caption "A") is
followed by a `Window` record whose height token is non-numeric; the
claim predicts the height keeps its prior value 20, but C++11 stream
extraction stores 0 into the failing field, so the resulting height is 0. -/
theorem c8_counterexample :
    (readConfig ⟨["Window", "A", "10", "20", "Window", "B", "30", "xyz"],
                 false, false⟩ defaultConfig).1.window
      = ⟨"B", 30, 0⟩ ∧ (0 : Int) ≠ 20 := by
  constructor
  · decide
  · decide

/-- C4 counterexample: with entity 0 selected on two consecutive frames
and the mirrored scale equal to its previous-frame value (1), the claim
predicts the entity keeps its scale 2 and the mirror is refreshed to 2;
the code instead writes the mirrored scale 1 into the entity
unconditionally and leaves the mirror at 1. -/
theorem c4_counterexample :
    ((handle_input
        ⟨true, true, true, 0, true, 1, 0, 0, 0, 0, 0, "e"⟩
        ⟨true, true, true, 0, true, 1, 0, 0, 0, 0, 0, "e"⟩
        [⟨"e", ⟨0, 0⟩, ⟨5, 0⟩, .circle 1, 2, ⟨0, 0, 0, 1⟩, true⟩]).2.getD 0 default).scale
      = 1 ∧
    ((handle_input
        ⟨true, true, true, 0, true, 1, 0, 0, 0, 0, 0, "e"⟩
        ⟨true, true, true, 0, true, 1, 0, 0, 0, 0, 0, "e"⟩
        [⟨"e", ⟨0, 0⟩, ⟨5, 0⟩, .circle 1, 2, ⟨0, 0, 0, 1⟩, true⟩]).1).scale
      = 1 ∧
    (1 : ℚ) ≠ 2 := by
  refine ⟨by decide, by decide, by decide⟩

/-! ## Parser lemmas -/

/-- Once `failbit` is set the `while (input >> s)` loop exits at once and
the stream is returned untouched, for any fuel. -/
theorem runConfigLoop_failbit (fuel : Nat) (st : IStream) (c : Config)
    (h : st.failbit = true) : runConfigLoop fuel st c = (c, st) := by
  cases fuel with
  | zero => rfl
  | succ n => simp [runConfigLoop, readStr, h]

/-- `read_circle_entity` on nine well-formed field tokens consumes exactly
those tokens and yields the corresponding active, opaque, scale-1 entity. -/
theorem read_circle_entity_wf (nm t1 t2 t3 t4 t5 t6 t7 t8 : String)
    (x y vx vy r g b rad : ℚ) (rest : List String)
    (h1 : parseRatTok t1 = some x) (h2 : parseRatTok t2 = some y)
    (h3 : parseRatTok t3 = some vx) (h4 : parseRatTok t4 = some vy)
    (h5 : parseRatTok t5 = some r) (h6 : parseRatTok t6 = some g)
    (h7 : parseRatTok t7 = some b) (h8 : parseRatTok t8 = some rad) :
    read_circle_entity
        ⟨nm :: t1 :: t2 :: t3 :: t4 :: t5 :: t6 :: t7 :: t8 :: rest, false, false⟩
      = (some ⟨nm, ⟨x, y⟩, ⟨vx, vy⟩, .circle rad, 1, ⟨r, g, b, 1⟩, true⟩,
         ⟨rest, false, false⟩) := by
  simp [read_circle_entity, read_common_components, readStrInto, readRatInto, readRat,
    h1, h2, h3, h4, h5, h6, h7, h8]

/-- `read_rectangle_entity` on ten well-formed field tokens. -/
theorem read_rectangle_entity_wf (nm t1 t2 t3 t4 t5 t6 t7 t8 t9 : String)
    (x y vx vy r g b wd ht : ℚ) (rest : List String)
    (h1 : parseRatTok t1 = some x) (h2 : parseRatTok t2 = some y)
    (h3 : parseRatTok t3 = some vx) (h4 : parseRatTok t4 = some vy)
    (h5 : parseRatTok t5 = some r) (h6 : parseRatTok t6 = some g)
    (h7 : parseRatTok t7 = some b) (h8 : parseRatTok t8 = some wd)
    (h9 : parseRatTok t9 = some ht) :
    read_rectangle_entity
        ⟨nm :: t1 :: t2 :: t3 :: t4 :: t5 :: t6 :: t7 :: t8 :: t9 :: rest, false, false⟩
      = (some ⟨nm, ⟨x, y⟩, ⟨vx, vy⟩, .rect wd ht, 1, ⟨r, g, b, 1⟩, true⟩,
         ⟨rest, false, false⟩) := by
  simp [read_rectangle_entity, read_common_components, readStrInto, readRatInto, readRat,
    h1, h2, h3, h4, h5, h6, h7, h8, h9]

/-- One loop iteration over a well-formed `Window` record. -/
theorem runConfigLoop_window_step (fuel : Nat) (c : Config)
    (cap tw th : String) (wv hv : Int) (rest : List String)
    (hw : parseIntTok tw = some wv) (hh : parseIntTok th = some hv) :
    runConfigLoop (fuel + 1) ⟨"Window" :: cap :: tw :: th :: rest, false, false⟩ c
      = runConfigLoop fuel ⟨rest, false, false⟩ { c with window := ⟨cap, wv, hv⟩ } := by
  simp [runConfigLoop, readStr, dispatchRecord, readWindow, readStrInto, readIntInto, hw, hh]

/-- One loop iteration over a well-formed `Font` record. -/
theorem runConfigLoop_font_step (fuel : Nat) (c : Config)
    (file ts tr tg tb : String) (sv rv gv bv : ℚ) (rest : List String)
    (hs : parseRatTok ts = some sv) (hr : parseRatTok tr = some rv)
    (hg : parseRatTok tg = some gv) (hb : parseRatTok tb = some bv) :
    runConfigLoop (fuel + 1) ⟨"Font" :: file :: ts :: tr :: tg :: tb :: rest, false, false⟩ c
      = runConfigLoop fuel ⟨rest, false, false⟩
          { c with font_asset := ⟨file, sv, ⟨rv, gv, bv, 1⟩⟩ } := by
  simp [runConfigLoop, readStr, dispatchRecord, readFont, readStrInto, readRatInto,
    hs, hr, hg, hb]

/-- One loop iteration over a well-formed `Circle` record appends exactly
that entity. -/
theorem runConfigLoop_circle_step (fuel : Nat) (c : Config)
    (nm t1 t2 t3 t4 t5 t6 t7 t8 : String)
    (x y vx vy r g b rad : ℚ) (rest : List String)
    (h1 : parseRatTok t1 = some x) (h2 : parseRatTok t2 = some y)
    (h3 : parseRatTok t3 = some vx) (h4 : parseRatTok t4 = some vy)
    (h5 : parseRatTok t5 = some r) (h6 : parseRatTok t6 = some g)
    (h7 : parseRatTok t7 = some b) (h8 : parseRatTok t8 = some rad) :
    runConfigLoop (fuel + 1)
        ⟨"Circle" :: nm :: t1 :: t2 :: t3 :: t4 :: t5 :: t6 :: t7 :: t8 :: rest, false, false⟩ c
      = runConfigLoop fuel ⟨rest, false, false⟩
          { c with entity_templates := c.entity_templates
              ++ [⟨nm, ⟨x, y⟩, ⟨vx, vy⟩, .circle rad, 1, ⟨r, g, b, 1⟩, true⟩] } := by
  simp [runConfigLoop, readStr, dispatchRecord,
    read_circle_entity_wf nm t1 t2 t3 t4 t5 t6 t7 t8 x y vx vy r g b rad rest
      h1 h2 h3 h4 h5 h6 h7 h8]

/-- One loop iteration over a well-formed `Rectangle` record appends
exactly that entity. -/
theorem runConfigLoop_rect_step (fuel : Nat) (c : Config)
    (nm t1 t2 t3 t4 t5 t6 t7 t8 t9 : String)
    (x y vx vy r g b wd ht : ℚ) (rest : List String)
    (h1 : parseRatTok t1 = some x) (h2 : parseRatTok t2 = some y)
    (h3 : parseRatTok t3 = some vx) (h4 : parseRatTok t4 = some vy)
    (h5 : parseRatTok t5 = some r) (h6 : parseRatTok t6 = some g)
    (h7 : parseRatTok t7 = some b) (h8 : parseRatTok t8 = some wd)
    (h9 : parseRatTok t9 = some ht) :
    runConfigLoop (fuel + 1)
        ⟨"Rectangle" :: nm :: t1 :: t2 :: t3 :: t4 :: t5 :: t6 :: t7 :: t8 :: t9 :: rest,
         false, false⟩ c
      = runConfigLoop fuel ⟨rest, false, false⟩
          { c with entity_templates := c.entity_templates
              ++ [⟨nm, ⟨x, y⟩, ⟨vx, vy⟩, .rect wd ht, 1, ⟨r, g, b, 1⟩, true⟩] } := by
  simp [runConfigLoop, readStr, dispatchRecord,
    read_rectangle_entity_wf nm t1 t2 t3 t4 t5 t6 t7 t8 t9 x y vx vy r g b wd ht rest
      h1 h2 h3 h4 h5 h6 h7 h8 h9]

/-- One loop iteration over an unrecognized keyword skips exactly that
token and changes nothing. -/
theorem runConfigLoop_unknown_step (fuel : Nat) (c : Config) (s : String)
    (rest : List String)
    (hw : s ≠ "Window") (hf : s ≠ "Font") (hc : s ≠ "Circle") (hr : s ≠ "Rectangle") :
    runConfigLoop (fuel + 1) ⟨s :: rest, false, false⟩ c
      = runConfigLoop fuel ⟨rest, false, false⟩ c := by
  simp [runConfigLoop, readStr, dispatchRecord, hw, hf, hc, hr]

/-- A well-formed token stream: any interleaving of well-formed `Window`,
`Font`, `Circle` and `Rectangle` records and single unrecognized keyword
tokens, paired with the entity list its entity records denote, in input
order. -/
inductive WfStream : List String → List Entity → Prop where
  | nil : WfStream [] []
  | window (cap tw th : String) (wv hv : Int) (rest : List String) (es : List Entity) :
      parseIntTok tw = some wv → parseIntTok th = some hv →
      WfStream rest es → WfStream ("Window" :: cap :: tw :: th :: rest) es
  | font (file ts tr tg tb : String) (sv rv gv bv : ℚ) (rest : List String) (es : List Entity) :
      parseRatTok ts = some sv → parseRatTok tr = some rv →
      parseRatTok tg = some gv → parseRatTok tb = some bv →
      WfStream rest es → WfStream ("Font" :: file :: ts :: tr :: tg :: tb :: rest) es
  | circle (nm t1 t2 t3 t4 t5 t6 t7 t8 : String) (x y vx vy r g b rad : ℚ)
      (rest : List String) (es : List Entity) :
      parseRatTok t1 = some x → parseRatTok t2 = some y →
      parseRatTok t3 = some vx → parseRatTok t4 = some vy →
      parseRatTok t5 = some r → parseRatTok t6 = some g →
      parseRatTok t7 = some b → parseRatTok t8 = some rad →
      WfStream rest es →
      WfStream ("Circle" :: nm :: t1 :: t2 :: t3 :: t4 :: t5 :: t6 :: t7 :: t8 :: rest)
        (⟨nm, ⟨x, y⟩, ⟨vx, vy⟩, .circle rad, 1, ⟨r, g, b, 1⟩, true⟩ :: es)
  | rect (nm t1 t2 t3 t4 t5 t6 t7 t8 t9 : String) (x y vx vy r g b wd ht : ℚ)
      (rest : List String) (es : List Entity) :
      parseRatTok t1 = some x → parseRatTok t2 = some y →
      parseRatTok t3 = some vx → parseRatTok t4 = some vy →
      parseRatTok t5 = some r → parseRatTok t6 = some g →
      parseRatTok t7 = some b → parseRatTok t8 = some wd →
      parseRatTok t9 = some ht →
      WfStream rest es →
      WfStream ("Rectangle" :: nm :: t1 :: t2 :: t3 :: t4 :: t5 :: t6 :: t7 :: t8 :: t9 :: rest)
        (⟨nm, ⟨x, y⟩, ⟨vx, vy⟩, .rect wd ht, 1, ⟨r, g, b, 1⟩, true⟩ :: es)
  | unknown (s : String) (rest : List String) (es : List Entity) :
      s ≠ "Window" → s ≠ "Font" → s ≠ "Circle" → s ≠ "Rectangle" →
      WfStream rest es → WfStream (s :: rest) es

/-- Running the parse loop over a well-formed stream appends exactly the
denoted entities, in order, and ends at clean end-of-input. -/
theorem wfStream_run (ts : List String) (es : List Entity) (h : WfStream ts es) :
    ∀ fuel : Nat, ts.length < fuel → ∀ c : Config,
      (runConfigLoop fuel ⟨ts, false, false⟩ c).1.entity_templates
          = c.entity_templates ++ es ∧
      (runConfigLoop fuel ⟨ts, false, false⟩ c).2 = ⟨[], true, true⟩ := by
  induction h with
  | nil =>
      intro fuel hf c
      obtain ⟨f, rfl⟩ : ∃ f, fuel = f + 1 := ⟨fuel - 1, by omega⟩
      simp [runConfigLoop, readStr]
  | window cap tw th wv hv rest es hw hh hrest ih =>
      intro fuel hf c
      obtain ⟨f, rfl⟩ : ∃ f, fuel = f + 1 := ⟨fuel - 1, by omega⟩
      rw [runConfigLoop_window_step f c cap tw th wv hv rest hw hh]
      exact ih f (by simp at hf; omega) _
  | font file ts' tr tg tb sv rv gv bv rest es hs hr hg hb hrest ih =>
      intro fuel hf c
      obtain ⟨f, rfl⟩ : ∃ f, fuel = f + 1 := ⟨fuel - 1, by omega⟩
      rw [runConfigLoop_font_step f c file ts' tr tg tb sv rv gv bv rest hs hr hg hb]
      exact ih f (by simp at hf; omega) _
  | circle nm t1 t2 t3 t4 t5 t6 t7 t8 x y vx vy r g b rad rest es
      h1 h2 h3 h4 h5 h6 h7 h8 hrest ih =>
      intro fuel hf c
      obtain ⟨f, rfl⟩ : ∃ f, fuel = f + 1 := ⟨fuel - 1, by omega⟩
      rw [runConfigLoop_circle_step f c nm t1 t2 t3 t4 t5 t6 t7 t8 x y vx vy r g b rad rest
        h1 h2 h3 h4 h5 h6 h7 h8]
      have hih := ih f (by simp at hf; omega)
        { c with entity_templates := c.entity_templates
            ++ [⟨nm, ⟨x, y⟩, ⟨vx, vy⟩, .circle rad, 1, ⟨r, g, b, 1⟩, true⟩] }
      refine ⟨?_, hih.2⟩
      rw [hih.1]
      simp
  | rect nm t1 t2 t3 t4 t5 t6 t7 t8 t9 x y vx vy r g b wd ht rest es
      h1 h2 h3 h4 h5 h6 h7 h8 h9 hrest ih =>
      intro fuel hf c
      obtain ⟨f, rfl⟩ : ∃ f, fuel = f + 1 := ⟨fuel - 1, by omega⟩
      rw [runConfigLoop_rect_step f c nm t1 t2 t3 t4 t5 t6 t7 t8 t9 x y vx vy r g b wd ht rest
        h1 h2 h3 h4 h5 h6 h7 h8 h9]
      have hih := ih f (by simp at hf; omega)
        { c with entity_templates := c.entity_templates
            ++ [⟨nm, ⟨x, y⟩, ⟨vx, vy⟩, .rect wd ht, 1, ⟨r, g, b, 1⟩, true⟩] }
      refine ⟨?_, hih.2⟩
      rw [hih.1]
      simp
  | unknown s rest es hw hf' hc hr hrest ih =>
      intro fuel hf c
      obtain ⟨f, rfl⟩ : ∃ f, fuel = f + 1 := ⟨fuel - 1, by omega⟩
      rw [runConfigLoop_unknown_step f c s rest hw hf' hc hr]
      exact ih f (by simp at hf; omega) _

/-- A `Circle` record whose eight common-component tokens are well formed
but whose radius token is malformed fails without consuming the bad
token. -/
theorem read_circle_bad_radius (rest : List String) :
    read_circle_entity
        ⟨"nm" :: "1" :: "2" :: "3" :: "4" :: "5" :: "6" :: "7" :: "oops" :: rest, false, false⟩
      = (none, ⟨"oops" :: rest, true, false⟩) := by
  have p1 : parseRatTok "1" = some 1 := by decide
  have p2 : parseRatTok "2" = some 2 := by decide
  have p3 : parseRatTok "3" = some 3 := by decide
  have p4 : parseRatTok "4" = some 4 := by decide
  have p5 : parseRatTok "5" = some 5 := by decide
  have p6 : parseRatTok "6" = some 6 := by decide
  have p7 : parseRatTok "7" = some 7 := by decide
  have pb : parseRatTok "oops" = none := by decide
  simp [read_circle_entity, read_common_components, readStrInto, readRatInto, readRat,
    p1, p2, p3, p4, p5, p6, p7, pb]

/-- After a malformed radius, the parse loop stops at once: whatever
tokens follow are never examined and the config is returned untouched. -/
theorem runConfigLoop_circle_bad (fuel : Nat) (c : Config) (rest : List String) :
    runConfigLoop (fuel + 1)
        ⟨"Circle" :: "nm" :: "1" :: "2" :: "3" :: "4" :: "5" :: "6" :: "7" :: "oops" :: rest,
         false, false⟩ c
      = (c, ⟨"oops" :: rest, true, false⟩) := by
  simp [runConfigLoop, readStr, dispatchRecord, read_circle_bad_radius rest]
  exact runConfigLoop_failbit _ _ _ rfl

/-- `readConfig` on a malformed-radius `Circle` record followed by
arbitrary tokens returns the config untouched, with `failbit` set and
`eofbit` clear. -/
theorem readConfig_circle_bad (rest : List String) (c : Config) :
    readConfig ⟨"Circle" :: "nm" :: "1" :: "2" :: "3" :: "4" :: "5" :: "6" :: "7" :: "oops" :: rest,
                false, false⟩ c
      = (c, ⟨"oops" :: rest, true, false⟩) :=
  runConfigLoop_circle_bad _ c rest

/-- A `Window` record with a well-formed width token and a malformed
height token: caption and width take the new values, the height is set to
0 (C++11 stores 0 on extraction failure), and the parse stops without
consuming the bad token. -/
theorem runConfigLoop_window_bad_height (fuel : Nat) (c : Config)
    (cap tw th : String) (wv : Int) (rest : List String)
    (hw : parseIntTok tw = some wv) (hh : parseIntTok th = none) :
    runConfigLoop (fuel + 1) ⟨"Window" :: cap :: tw :: th :: rest, false, false⟩ c
      = ({ c with window := ⟨cap, wv, 0⟩ }, ⟨th :: rest, true, false⟩) := by
  simp [runConfigLoop, readStr, dispatchRecord, readWindow, readStrInto, readIntInto, hw, hh]
  exact runConfigLoop_failbit _ _ _ rfl

/-- A `Window` record with a malformed width token: the caption takes the
new value, the width is set to 0, and the height keeps its prior value
(its extraction's sentry fails, so it is never touched). -/
theorem runConfigLoop_window_bad_width (fuel : Nat) (c : Config)
    (cap tw : String) (rest : List String)
    (hw : parseIntTok tw = none) :
    runConfigLoop (fuel + 1) ⟨"Window" :: cap :: tw :: rest, false, false⟩ c
      = ({ c with window := ⟨cap, 0, c.window.height⟩ }, ⟨tw :: rest, true, false⟩) := by
  simp [runConfigLoop, readStr, dispatchRecord, readWindow, readStrInto, readIntInto, hw]
  exact runConfigLoop_failbit _ _ _ rfl

/-- C2 amended: a `Circle` record whose trailing radius token is missing
or malformed never appends an entity; if the radius token is missing at
end-of-input, earlier records are kept and the load succeeds, but if the
radius token is malformed the stream enters a failure state, NO
subsequent record (well-formed or not) is read, and `load_config` raises
the read error. -/
theorem c2_amended :
    (∀ (rest : List String) (c : Config),
      readConfig ⟨"Circle" :: "nm" :: "1" :: "2" :: "3" :: "4" :: "5" :: "6" :: "7" :: "oops" :: rest,
                  false, false⟩ c
        = (c, ⟨"oops" :: rest, true, false⟩)) ∧
    (∀ rest : List String,
      load_config ⟨"Circle" :: "nm" :: "1" :: "2" :: "3" :: "4" :: "5" :: "6" :: "7" :: "oops" :: rest,
                   false, false⟩
        = .error "Failed to read configuration file.") ∧
    load_config ⟨["Window", "W", "100", "200", "Circle", "nm", "1", "2", "3", "4", "5", "6", "7"],
                 false, false⟩
      = .ok ⟨⟨"W", 100, 200⟩, ⟨"", 12, ⟨1, 1, 1, 1⟩⟩, []⟩ := by
  refine ⟨fun rest c => readConfig_circle_bad rest c, fun rest => ?_, by rfl⟩
  simp only [load_config, readConfig_circle_bad rest defaultConfig]
  rfl

/-- C3: `load_config` fails exactly when, after the stream is consumed,
`failbit` is set and `eofbit` is not; in particular end-of-input in the
middle of an entity's fields is benign (the truncated entity is simply
dropped: two `Circle` records, the second truncated, load successfully
with one template), while a conversion failure away from end-of-input
(here a malformed `Font` blue token) is fatal. -/
theorem c3_error_characterization :
    (∀ st : IStream,
      (∃ msg, load_config st = Except.error msg)
        ↔ ((readConfig st defaultConfig).2.failbit = true
            ∧ (readConfig st defaultConfig).2.eofbit = false)) ∧
    load_config ⟨["Circle", "a", "1", "2", "3", "4", "5", "6", "7", "8",
                  "Circle", "b", "9", "9"], false, false⟩
      = .ok ⟨⟨"", 1280, 800⟩, ⟨"", 12, ⟨1, 1, 1, 1⟩⟩,
             [⟨"a", ⟨1, 2⟩, ⟨3, 4⟩, .circle 8, 1, ⟨5, 6, 7, 1⟩, true⟩]⟩ ∧
    load_config ⟨["Font", "f.ttf", "12", "0", "0", "zz"], false, false⟩
      = .error "Failed to read configuration file." := by
  refine ⟨?_, by rfl, by rfl⟩
  intro st
  rcases hr : readConfig st defaultConfig with ⟨c, st'⟩
  obtain ⟨toks, fb, eb⟩ := st'
  simp only [load_config, hr]
  cases fb <;> cases eb <;> simp

/-- C5: parsing a well-formed config input is order-preserving — the
load succeeds and the template sequence is exactly the input's entity
records, in input order (hence of the same length N). -/
theorem c5_order_preserving (ts : List String) (es : List Entity)
    (h : WfStream ts es) :
    ∃ c : Config, load_config ⟨ts, false, false⟩ = .ok c ∧
      c.entity_templates = es := by
  have hm := wfStream_run ts es h (ts.length + 1) (by omega) defaultConfig
  refine ⟨(readConfig ⟨ts, false, false⟩ defaultConfig).1, ?_, ?_⟩
  · have h2 : (readConfig ⟨ts, false, false⟩ defaultConfig).2 = ⟨[], true, true⟩ := hm.2
    simp only [load_config, h2]
    rfl
  · exact hm.1.trans (by simp [defaultConfig])

/-- Witness for C5: a stream with a `Circle` record, an unknown keyword
and a `Rectangle` record yields those two entities in order. -/
theorem c5_order_preserving_witness :
    WfStream
      ["Circle", "c1", "1", "2", "3", "4", "0", "0", "1", "10", "Noise",
       "Rectangle", "r1", "5", "6", "7", "8", "1", "0", "0", "20", "30"]
      [⟨"c1", ⟨1, 2⟩, ⟨3, 4⟩, .circle 10, 1, ⟨0, 0, 1, 1⟩, true⟩,
       ⟨"r1", ⟨5, 6⟩, ⟨7, 8⟩, .rect 20 30, 1, ⟨1, 0, 0, 1⟩, true⟩] ∧
    (∃ c : Config,
      load_config ⟨["Circle", "c1", "1", "2", "3", "4", "0", "0", "1", "10", "Noise",
                    "Rectangle", "r1", "5", "6", "7", "8", "1", "0", "0", "20", "30"],
                   false, false⟩
        = .ok c ∧
      c.entity_templates
        = [⟨"c1", ⟨1, 2⟩, ⟨3, 4⟩, .circle 10, 1, ⟨0, 0, 1, 1⟩, true⟩,
           ⟨"r1", ⟨5, 6⟩, ⟨7, 8⟩, .rect 20 30, 1, ⟨1, 0, 0, 1⟩, true⟩]) := by
  have hwf : WfStream
      ["Circle", "c1", "1", "2", "3", "4", "0", "0", "1", "10", "Noise",
       "Rectangle", "r1", "5", "6", "7", "8", "1", "0", "0", "20", "30"]
      [⟨"c1", ⟨1, 2⟩, ⟨3, 4⟩, .circle 10, 1, ⟨0, 0, 1, 1⟩, true⟩,
       ⟨"r1", ⟨5, 6⟩, ⟨7, 8⟩, .rect 20 30, 1, ⟨1, 0, 0, 1⟩, true⟩] := by
    refine WfStream.circle _ _ _ _ _ _ _ _ _ _ _ _ _ _ _ _ _ _ _
      (by decide) (by decide) (by decide) (by decide)
      (by decide) (by decide) (by decide) (by decide) ?_
    refine WfStream.unknown _ _ _ (by decide) (by decide) (by decide) (by decide) ?_
    refine WfStream.rect _ _ _ _ _ _ _ _ _ _ _ _ _ _ _ _ _ _ _ _ _
      (by decide) (by decide) (by decide) (by decide) (by decide)
      (by decide) (by decide) (by decide) (by decide) ?_
    exact WfStream.nil
  exact ⟨hwf, c5_order_preserving _ _ hwf⟩

/-- C8 amended: on a malformed `Window` record the fields read before the
failing token take their newly-read values, the field at the failing
token is set to 0 (C++11 extraction-failure semantics), the fields after
it keep their prior values, and no rollback occurs; entity records, by
contrast, are discarded whole. -/
theorem c8_amended :
    (∀ (c : Config) (cap tw th : String) (wv : Int) (rest : List String),
      parseIntTok tw = some wv → parseIntTok th = none →
      readConfig ⟨"Window" :: cap :: tw :: th :: rest, false, false⟩ c
        = ({ c with window := ⟨cap, wv, 0⟩ }, ⟨th :: rest, true, false⟩)) ∧
    (∀ (c : Config) (cap tw : String) (rest : List String),
      parseIntTok tw = none →
      readConfig ⟨"Window" :: cap :: tw :: rest, false, false⟩ c
        = ({ c with window := ⟨cap, 0, c.window.height⟩ }, ⟨tw :: rest, true, false⟩)) ∧
    (∀ (rest : List String) (c : Config),
      readConfig ⟨"Circle" :: "nm" :: "1" :: "2" :: "3" :: "4" :: "5" :: "6" :: "7" :: "oops" :: rest,
                  false, false⟩ c
        = (c, ⟨"oops" :: rest, true, false⟩)) :=
  ⟨fun c cap tw th wv rest hw hh => runConfigLoop_window_bad_height _ c cap tw th wv rest hw hh,
   fun c cap tw rest hw => runConfigLoop_window_bad_width _ c cap tw rest hw,
   fun rest c => readConfig_circle_bad rest c⟩

/-- Witness for C8: window record `Window B 30 xyz` against the default
config — caption and width update, height becomes 0. -/
theorem c8_amended_witness :
    parseIntTok "30" = some 30 ∧ parseIntTok "xyz" = none ∧
    readConfig ⟨["Window", "B", "30", "xyz"], false, false⟩ defaultConfig
      = ({ defaultConfig with window := ⟨"B", 30, 0⟩ }, ⟨["xyz"], true, false⟩) :=
  ⟨by decide, by decide,
   c8_amended.1 defaultConfig "B" "30" "xyz" 30 [] (by decide) (by decide)⟩

/-- What one reconciliation frame actually does while the same in-range
index stays selected: active flag, scale, color (alpha forced opaque) and
name are written into the entity unconditionally from the mirror; each
velocity component is written into the entity only when the mirror
differs from its previous-frame value and is otherwise refreshed from the
entity. -/
def UpdateSelectionSpec (input previous_input : Input) (entities : List Entity) : Prop :=
  handle_input input previous_input entities
    = (let e := entities.getD input.selected_index default
       let v0 := if input.velocity0 = previous_input.velocity0 then e.velocity.x
                 else input.velocity0
       let v1 := if input.velocity1 = previous_input.velocity1 then e.velocity.y
                 else input.velocity1
       ({ input with velocity0 := v0, velocity1 := v1 },
        entities.set input.selected_index
          { e with
            is_active := input.is_active, scale := input.scale,
            velocity := ⟨v0, v1⟩,
            color := ⟨input.color0, input.color1, input.color2, 1⟩,
            name := input.name }))

/-- C4 amended: while the same in-range entity index stays selected
across two consecutive frames, only the velocity components follow the
written-back-iff-differing-from-previous-frame rule (with the mirror
refreshed from the entity otherwise); the active flag, scale, color and
name are written into the entity unconditionally. -/
theorem c4_amended (input previous_input : Input) (entities : List Entity)
    (hsel : input.selected_index = previous_input.selected_index)
    (hlt : input.selected_index < entities.length) :
    UpdateSelectionSpec input previous_input entities := by
  unfold UpdateSelectionSpec handle_input update_selection
  rw [if_neg (by omega), if_pos hsel]

/-- Witness for C4: a one-entity list with an unchanged selection and a
changed x-velocity mirror. -/
theorem c4_amended_witness :
    (⟨true, true, true, 0, true, 1, 9, 0, 0, 0, 0, "e"⟩ : Input).selected_index
        = (⟨true, true, true, 0, true, 1, 0, 0, 0, 0, 0, "e"⟩ : Input).selected_index ∧
    (⟨true, true, true, 0, true, 1, 9, 0, 0, 0, 0, "e"⟩ : Input).selected_index
        < [(⟨"e", ⟨0, 0⟩, ⟨5, 0⟩, .circle 1, 2, ⟨0, 0, 0, 1⟩, true⟩ : Entity)].length ∧
    UpdateSelectionSpec ⟨true, true, true, 0, true, 1, 9, 0, 0, 0, 0, "e"⟩
      ⟨true, true, true, 0, true, 1, 0, 0, 0, 0, 0, "e"⟩
      [⟨"e", ⟨0, 0⟩, ⟨5, 0⟩, .circle 1, 2, ⟨0, 0, 0, 1⟩, true⟩] :=
  ⟨rfl, by decide,
   c4_amended ⟨true, true, true, 0, true, 1, 9, 0, 0, 0, 0, "e"⟩
     ⟨true, true, true, 0, true, 1, 0, 0, 0, 0, 0, "e"⟩
     [⟨"e", ⟨0, 0⟩, ⟨5, 0⟩, .circle 1, 2, ⟨0, 0, 0, 1⟩, true⟩] rfl (by decide)⟩

end A1
